import Mathlib

set_option maxRecDepth 1000000

/-!
Verification of `PyCharmMiscProject/generate.py`: a synthetic oral-lesion
dataset generator.  The script seeds the global RNGs, builds three tables
(patient demographics, lesion detections, follow-up observations) as
dictionaries of independently sampled columns, left-joins follow-ups with
lesions on `lesion_id` and the result with patients on `patient_id`, drops
rows containing nulls when any null is present, and serializes the merged
table to a CSV file at a hard-coded relative path.

The embedding models a pandas DataFrame as a list of column names together
with a list of rows (each row a list of cell values), and models the
sampling primitives (`np.random.randint`, `np.random.choice`,
`np.random.uniform`, `random.randint`) parametrically over an abstract
source of randomness: each primitive maps a raw draw into the support of
the distribution the source requests (ranges stay half-open or inclusive
exactly as the libraries specify; the probability weights `p=[...]` only
shape the distribution over the same support, so they are abstracted).
All theorems quantify over every possible random source, hence they hold
in particular for the streams produced by seed 42.
-/

/-- A cell value of a table: the generated tables hold strings (ids and
categories), integers (counts, flags, scores), rationals (modelling the
real-valued `np.random.uniform` draws), dates (as day offsets from
2024-01-01) and the null marker that pandas introduces for unmatched
left-join rows (`NaN`). -/
inductive Val where
  | vstr (s : String)
  | vint (n : Int)
  | vrat (q : ℚ)
  | vdate (d : Int)
  | vnull
  deriving DecidableEq, Repr

instance : Inhabited Val := ⟨Val.vnull⟩

/-- An abstract source of randomness: `nats c i` is the raw integer draw
for call site `c`, element `i`; `rats c i` the raw rational draw.  The
seeded NumPy / Python generators are one particular such source. -/
structure RandSrc where
  nats : Nat → Nat → Nat
  rats : Nat → Nat → ℚ

/-- Model of one draw of `np.random.randint(lo, hi)`: a value in `[lo, hi)`. -/
def randintAt (lo hi : Int) (x : Nat) : Int :=
  lo + ((x % (hi - lo).toNat : Nat) : Int)

/-- Model of one draw of Python `random.randint(lo, hi)`: a value in
`[lo, hi]` (both ends inclusive, unlike NumPy). -/
def pyRandintAt (lo hi : Int) (x : Nat) : Int :=
  lo + ((x % (hi - lo + 1).toNat : Nat) : Int)

/-- Model of one draw of `np.random.choice(options, p=...)`: some element
of `options` (the weights `p` only bias the choice inside the support). -/
def choiceAt {α : Type} [Inhabited α] (options : List α) (x : Nat) : α :=
  options.getD (x % options.length) default

/-- Model of one draw of `np.random.uniform(lo, hi)`: `lo + (hi - lo) * f`
with `f` the fractional part of the raw draw, hence a value in `[lo, hi)`. -/
def uniformAt (lo hi : ℚ) (x : ℚ) : ℚ :=
  lo + (hi - lo) * Int.fract x

/-- Python `str.zfill(w)` on a digit string: left-pad with zeros to width `w`. -/
def zfill (w : Nat) (s : String) : String :=
  String.mk (List.replicate (w - s.length) '0') ++ s

/-- `f'P{str(i).zfill(4)}'` (generate.py line 27). -/
def patId (i : Nat) : String := "P" ++ zfill 4 (toString i)

/-- `f'L{str(i).zfill(4)}'` (generate.py line 50). -/
def lesId (i : Nat) : String := "L" ++ zfill 4 (toString i)

/-- `f'F{str(i).zfill(5)}'` (generate.py line 73). -/
def fuId (i : Nat) : String := "F" ++ zfill 5 (toString i)

/-- `n_patients = 500` (generate.py line 24). -/
def n_patients : Nat := 500

/-- `n_lesions = 800` (generate.py line 47). -/
def n_lesions : Nat := 800

/-- `n_followups = 2000` (generate.py line 70). -/
def n_followups : Nat := 2000

/-- The `patient_id` column values `P0001 .. P0500` (generate.py line 27). -/
def patientIds : List String := (List.range n_patients).map (fun i => patId (i + 1))

/-- The `lesion_id` column values `L0001 .. L0800` (generate.py line 50). -/
def lesionIds : List String := (List.range n_lesions).map (fun i => lesId (i + 1))

/-- Column names of `df_patients`, in the order of the `patient_data` dict
(generate.py lines 26-38). -/
def patCols : List String :=
  ["patient_id", "age", "gender", "location", "ethnicity", "betel_chewing",
   "tobacco_use", "alcohol_consumption", "family_history_cancer",
   "oral_hygiene_score", "rural_area"]

/-- Column names of `df_lesions`, in the order of the `lesion_data` dict
(generate.py lines 49-61). -/
def lesCols : List String :=
  ["lesion_id", "patient_id", "detection_date", "location_oral_cavity",
   "initial_size_mm", "color", "texture", "pain_level",
   "ai_confidence_score", "lesion_type_detected"]

/-- Column names of `df_followups`, in the order of the `followup_data` dict
(generate.py lines 72-83). -/
def fuCols : List String :=
  ["followup_id", "lesion_id", "followup_date", "size_mm",
   "growth_rate_mm_per_month", "color_change", "texture_change",
   "pain_change", "clinician_reviewed", "biopsy_recommended"]

/-- Row `i` (0-based) of the patient demographics table, one cell per entry
of the `patient_data` dict (generate.py lines 26-38). -/
def patientRow (r : RandSrc) (i : Nat) : List Val :=
  [Val.vstr (patId (i + 1)),
   Val.vint (randintAt 18 80 (r.nats 0 i)),
   Val.vstr (choiceAt ["Male", "Female"] (r.nats 1 i)),
   Val.vstr (choiceAt ["Sabah", "Sarawak", "Other"] (r.nats 2 i)),
   Val.vstr (choiceAt ["Indigenous", "Chinese", "Malay", "Other"] (r.nats 3 i)),
   Val.vint (choiceAt [0, 1] (r.nats 4 i)),
   Val.vint (choiceAt [0, 1] (r.nats 5 i)),
   Val.vstr (choiceAt ["None", "Occasional", "Regular", "Heavy"] (r.nats 6 i)),
   Val.vint (choiceAt [0, 1] (r.nats 7 i)),
   Val.vint (randintAt 1 11 (r.nats 8 i)),
   Val.vint (choiceAt [0, 1] (r.nats 9 i))]

/-- Row `i` (0-based) of the lesion table, one cell per entry of the
`lesion_data` dict (generate.py lines 49-61); `patient_id` is sampled with
replacement from the patient key column (line 51). -/
def lesionRow (r : RandSrc) (i : Nat) : List Val :=
  [Val.vstr (lesId (i + 1)),
   Val.vstr (choiceAt patientIds (r.nats 10 i)),
   Val.vdate (pyRandintAt 0 300 (r.nats 11 i)),
   Val.vstr (choiceAt ["Tongue", "Buccal Mucosa", "Floor of Mouth", "Palate",
                       "Gingiva", "Lip"] (r.nats 12 i)),
   Val.vrat (uniformAt 2 20 (r.rats 13 i)),
   Val.vstr (choiceAt ["White", "Red", "Mixed", "Normal"] (r.nats 14 i)),
   Val.vstr (choiceAt ["Smooth", "Rough", "Ulcerated", "Raised"] (r.nats 15 i)),
   Val.vint (randintAt 0 11 (r.nats 16 i)),
   Val.vrat (uniformAt (0.4 : ℚ) (0.99 : ℚ) (r.rats 17 i)),
   Val.vstr (choiceAt ["Benign", "Suspicious", "High-Risk"] (r.nats 18 i))]

/-- Row `i` (0-based) of the follow-up table, one cell per entry of the
`followup_data` dict (generate.py lines 72-83); `lesion_id` is sampled with
replacement from the lesion key column (line 74). -/
def followupRow (r : RandSrc) (i : Nat) : List Val :=
  [Val.vstr (fuId (i + 1)),
   Val.vstr (choiceAt lesionIds (r.nats 19 i)),
   Val.vdate (pyRandintAt 0 365 (r.nats 20 i)),
   Val.vrat (uniformAt 1 25 (r.rats 21 i)),
   Val.vrat (uniformAt (-2) 5 (r.rats 22 i)),
   Val.vint (choiceAt [0, 1] (r.nats 23 i)),
   Val.vint (choiceAt [0, 1] (r.nats 24 i)),
   Val.vint (randintAt (-3) 4 (r.nats 25 i)),
   Val.vint (choiceAt [0, 1] (r.nats 26 i)),
   Val.vint (choiceAt [0, 1] (r.nats 27 i))]

/-- A pandas DataFrame: ordered column names and a list of rows. -/
structure DF where
  cols : List String
  rows : List (List Val)

/-- `df_patients = pd.DataFrame(patient_data)` (generate.py line 40). -/
def df_patients (r : RandSrc) : DF :=
  ⟨patCols, (List.range n_patients).map (patientRow r)⟩

/-- `df_lesions = pd.DataFrame(lesion_data)` (generate.py line 63). -/
def df_lesions (r : RandSrc) : DF :=
  ⟨lesCols, (List.range n_lesions).map (lesionRow r)⟩

/-- `df_followups = pd.DataFrame(followup_data)` (generate.py line 85). -/
def df_followups (r : RandSrc) : DF :=
  ⟨fuCols, (List.range n_followups).map (followupRow r)⟩

/-- Index of a column name in a header list (0 when absent past the end). -/
def colIdx : List String → String → Nat
  | [], _ => 0
  | c :: cs, k => if c = k then 0 else colIdx cs k + 1

/-- The cell of `row` in column `c` of a frame with header `cols`. -/
def cellAt (cols : List String) (row : List Val) (c : String) : Val :=
  row.getD (colIdx cols c) Val.vnull

/-- The values of column `c` of `df`, top to bottom. -/
def colVals (df : DF) (c : String) : List Val :=
  df.rows.map (fun row => cellAt df.cols row c)

/-- Model of `left.merge(right, on=key, how='left')` (pandas): for every
left row, every right row with an equal key value yields an output row
(left cells, then the right cells minus the key column); a left row with
no match is kept once, padded with nulls.  Output columns are the left
columns followed by the right columns minus the key. -/
def mergeLeft (l r : DF) (key : String) : DF :=
  { cols := l.cols ++ r.cols.eraseIdx (colIdx r.cols key),
    rows := l.rows.flatMap (fun lrow =>
      let k := cellAt l.cols lrow key
      let ms := r.rows.filter (fun rrow => cellAt r.cols rrow key == k)
      if ms.isEmpty then
        [lrow ++ (r.cols.eraseIdx (colIdx r.cols key)).map (fun _ => Val.vnull)]
      else
        ms.map (fun rrow => lrow ++ rrow.eraseIdx (colIdx r.cols key))) }

/-- `df_merged = df_followups.merge(df_lesions, on='lesion_id', how='left')`
(generate.py line 97). -/
def df_merged1 (r : RandSrc) : DF :=
  mergeLeft (df_followups r) (df_lesions r) "lesion_id"

/-- `df_merged = df_merged.merge(df_patients, on='patient_id', how='left')`
(generate.py line 102). -/
def df_merged (r : RandSrc) : DF :=
  mergeLeft (df_merged1 r) (df_patients r) "patient_id"

/-- `missing_count = df_merged.isnull().sum().sum()` (generate.py line 107). -/
def missing_count (df : DF) : Nat :=
  (df.rows.map (fun row => (row.filter (fun v => v == Val.vnull)).length)).sum

/-- `df.dropna()`: keep only the rows without any null cell
(generate.py line 112). -/
def dropnaDF (df : DF) : DF :=
  ⟨df.cols, df.rows.filter (fun row => row.all (fun v => !(v == Val.vnull)))⟩

/-- The table that is serialized: `dropna` runs only when
`missing_count > 0` (generate.py lines 110-112). -/
def df_final (r : RandSrc) : DF :=
  if missing_count (df_merged r) > 0 then dropnaDF (df_merged r) else df_merged r

/-- `output_filename` (generate.py line 118). -/
def output_filename : String :=
  "../../../Users/Asus/PyCharmMiscProject/smart_toothbrush_data.csv"

/-- CSV text of one cell. -/
def valToCsv : Val → String
  | Val.vstr s => s
  | Val.vint n => toString n
  | Val.vrat q => toString q
  | Val.vdate d => toString d
  | Val.vnull => ""

/-- CSV text of one data row. -/
def csvLine (row : List Val) : String :=
  String.intercalate "," (row.map valToCsv)

/-- Model of `df.to_csv(filename, index=False)` (generate.py line 119):
a header line of the column names followed by one line per row, with no
index column. -/
def toCsv (df : DF) : String :=
  String.intercalate "," df.cols ++ "\n"
    ++ String.intercalate "\n" (df.rows.map csvLine) ++ "\n"

/-- The bytes the program writes to `output_filename`, as a function of the
random source. -/
def runOutput (r : RandSrc) : String := toCsv (df_final r)

/-- Model of `np.random.seed(42); random.seed(42)` (generate.py lines
13-14): after seeding, every raw draw is a deterministic function of the
seed alone (a linear congruential generator stands in for the library
generators, whose exact streams are outside the repository). -/
def seededRand (seed : Nat) : RandSrc :=
  { nats := fun c i => (1664525 * (seed + 1000003 * c + i) + 1013904223) % 4294967296,
    rats := fun c i =>
      ((1664525 * (seed + 1000003 * c + i) + 1013904223) % 4294967296 : ℚ) / 4294967296 }

/-- The all-zeros random source, used to evaluate the pipeline on one
concrete input. -/
def zeroRand : RandSrc := ⟨fun _ _ => 0, fun _ _ => 0⟩

/-! ### Properties of the sampling primitives -/

lemma choiceAt_mem {α : Type} [Inhabited α] (options : List α) (x : Nat)
    (h : options ≠ []) : choiceAt options x ∈ options := by
  have hlen : 0 < options.length := List.length_pos.mpr h
  have hx : x % options.length < options.length := Nat.mod_lt _ hlen
  unfold choiceAt
  rw [List.getD_eq_getElem _ _ hx]
  exact List.getElem_mem hx

lemma randintAt_bounds (lo hi : Int) (x : Nat) (h : lo < hi) :
    lo ≤ randintAt lo hi x ∧ randintAt lo hi x < hi := by
  have hpos : 0 < (hi - lo).toNat := by omega
  have hmod := Nat.mod_lt x hpos
  unfold randintAt
  omega

lemma pyRandintAt_bounds (lo hi : Int) (x : Nat) (h : lo ≤ hi) :
    lo ≤ pyRandintAt lo hi x ∧ pyRandintAt lo hi x ≤ hi := by
  have hpos : 0 < (hi - lo + 1).toNat := by omega
  have hmod := Nat.mod_lt x hpos
  unfold pyRandintAt
  omega

lemma uniformAt_bounds (lo hi : ℚ) (x : ℚ) (h : lo < hi) :
    lo ≤ uniformAt lo hi x ∧ uniformAt lo hi x < hi := by
  have h0 : (0 : ℚ) ≤ Int.fract x := Int.fract_nonneg x
  have h1 : Int.fract x < 1 := Int.fract_lt_one x
  unfold uniformAt
  constructor
  · nlinarith
  · nlinarith

/-! ### The generated id strings are pairwise distinct -/

/-- Accumulator-style decimal value of a digit string (structural, so it
reduces inside the kernel). -/
def digitsToNat : List Char → Nat → Nat
  | [], acc => acc
  | c :: cs, acc => digitsToNat cs (acc * 10 + (c.toNat - 48))

/-- Read the numeric part back out of an id string such as `L0042`. -/
def idNum (s : String) : Nat := digitsToNat (s.data.drop 1) 0

/-- `idNum` is a left inverse of each id builder on the ranges the script
uses, checked by evaluation. -/
def idParseCheck : Bool :=
  ((List.range n_lesions).all (fun i => idNum (lesId (i + 1)) == i + 1))
    && ((List.range n_patients).all (fun i => idNum (patId (i + 1)) == i + 1))

set_option maxRecDepth 100000 in
lemma idParseCheck_true : idParseCheck = true := by decide

lemma idNum_lesId {i : Nat} (hi : i < n_lesions) : idNum (lesId (i + 1)) = i + 1 := by
  have h := idParseCheck_true
  unfold idParseCheck at h
  rw [Bool.and_eq_true] at h
  simpa using List.all_eq_true.mp h.1 i (List.mem_range.mpr hi)

lemma idNum_patId {i : Nat} (hi : i < n_patients) : idNum (patId (i + 1)) = i + 1 := by
  have h := idParseCheck_true
  unfold idParseCheck at h
  rw [Bool.and_eq_true] at h
  simpa using List.all_eq_true.mp h.2 i (List.mem_range.mpr hi)

lemma lesionIds_nodup : lesionIds.Nodup := by
  unfold lesionIds
  refine List.Nodup.map_on ?_ (List.nodup_range _)
  intro x hx y hy hxy
  have hx' := List.mem_range.mp hx
  have hy' := List.mem_range.mp hy
  have h := congrArg idNum hxy
  rw [idNum_lesId hx', idNum_lesId hy'] at h
  omega

lemma patientIds_nodup : patientIds.Nodup := by
  unfold patientIds
  refine List.Nodup.map_on ?_ (List.nodup_range _)
  intro x hx y hy hxy
  have hx' := List.mem_range.mp hx
  have hy' := List.mem_range.mp hy
  have h := congrArg idNum hxy
  rw [idNum_patId hx', idNum_patId hy'] at h
  omega

lemma lesionIds_ne_nil : lesionIds ≠ [] := by
  apply List.ne_nil_of_length_pos
  simp [lesionIds, n_lesions]

lemma patientIds_ne_nil : patientIds ≠ [] := by
  apply List.ne_nil_of_length_pos
  simp [patientIds, n_patients]

/-! ### Generic facts about the left-merge -/

lemma length_flatMap_of_one {α β : Type} (f : α → List β) (l : List α)
    (h : ∀ a ∈ l, (f a).length = 1) : (l.flatMap f).length = l.length := by
  induction l with
  | nil => rfl
  | cons a t ih =>
    rw [List.flatMap_cons, List.length_append, h a (List.mem_cons_self a t),
      ih (fun b hb => h b (List.mem_cons_of_mem a hb)), List.length_cons]
    omega

lemma filter_key_eq_singleton {α β : Type} [DecidableEq β] (g : α → β) (k : β)
    (l : List α) (hnd : (l.map g).Nodup) (hk : k ∈ l.map g) :
    ∃ x, x ∈ l ∧ g x = k ∧ l.filter (fun a => g a == k) = [x] := by
  induction l with
  | nil => simp at hk
  | cons a t ih =>
    rw [List.map_cons, List.nodup_cons] at hnd
    rcases eq_or_ne (g a) k with hak | hak
    · refine ⟨a, List.mem_cons_self a t, hak, ?_⟩
      have ht : t.filter (fun b => g b == k) = [] := by
        refine List.filter_eq_nil_iff.mpr (fun b hb => ?_)
        simp only [beq_iff_eq]
        intro hgb
        exact hnd.1 (by rw [hak, ← hgb]; exact List.mem_map_of_mem g hb)
      simp [List.filter_cons, hak, ht]
    · have hk' : k ∈ t.map g := by
        rcases List.mem_cons.mp (List.map_cons g a t ▸ hk) with h | h
        · exact absurd h.symm hak
        · exact h
      obtain ⟨x, hx, hgx, hfil⟩ := ih hnd.2 hk'
      refine ⟨x, List.mem_cons_of_mem a hx, hgx, ?_⟩
      simp [List.filter_cons, hak, hfil]

lemma mergeLeft_rows_def (l r : DF) (key : String) :
    (mergeLeft l r key).rows = l.rows.flatMap (fun lrow =>
      let ms := r.rows.filter
        (fun rrow => cellAt r.cols rrow key == cellAt l.cols lrow key)
      if ms.isEmpty then
        [lrow ++ (r.cols.eraseIdx (colIdx r.cols key)).map (fun _ => Val.vnull)]
      else
        ms.map (fun rrow => lrow ++ rrow.eraseIdx (colIdx r.cols key))) := rfl

theorem mergeLeft_length (l r : DF) (key : String)
    (hnd : (colVals r key).Nodup)
    (hmem : ∀ lrow ∈ l.rows, cellAt l.cols lrow key ∈ colVals r key) :
    (mergeLeft l r key).rows.length = l.rows.length := by
  rw [mergeLeft_rows_def]
  apply length_flatMap_of_one
  intro lrow hl
  obtain ⟨x, hx, hgx, hfil⟩ :=
    filter_key_eq_singleton (fun row => cellAt r.cols row key)
      (cellAt l.cols lrow key) r.rows hnd (hmem lrow hl)
  simp [hfil]

theorem mergeLeft_shape (l r : DF) (key : String)
    (hnd : (colVals r key).Nodup)
    (hmem : ∀ lrow ∈ l.rows, cellAt l.cols lrow key ∈ colVals r key) :
    ∀ row ∈ (mergeLeft l r key).rows, ∃ lrow, lrow ∈ l.rows ∧
      ∃ rrow, rrow ∈ r.rows ∧
        cellAt r.cols rrow key = cellAt l.cols lrow key ∧
        row = lrow ++ rrow.eraseIdx (colIdx r.cols key) := by
  intro row hrow
  rw [mergeLeft_rows_def, List.mem_flatMap] at hrow
  obtain ⟨lrow, hl, hfl⟩ := hrow
  obtain ⟨x, hx, hgx, hfil⟩ :=
    filter_key_eq_singleton (fun row => cellAt r.cols row key)
      (cellAt l.cols lrow key) r.rows hnd (hmem lrow hl)
  simp [hfil] at hfl
  exact ⟨lrow, hl, x, hx, hgx, hfl⟩

/-! ### Key columns of the generated tables -/

lemma df_patients_rows (r : RandSrc) :
    (df_patients r).rows = (List.range n_patients).map (patientRow r) := rfl

lemma df_lesions_rows (r : RandSrc) :
    (df_lesions r).rows = (List.range n_lesions).map (lesionRow r) := rfl

lemma df_followups_rows (r : RandSrc) :
    (df_followups r).rows = (List.range n_followups).map (followupRow r) := rfl

lemma colVals_lesions_key (r : RandSrc) :
    colVals (df_lesions r) "lesion_id" = lesionIds.map Val.vstr := by
  unfold colVals df_lesions lesionIds
  rw [List.map_map, List.map_map]
  rfl

lemma colVals_patients_key (r : RandSrc) :
    colVals (df_patients r) "patient_id" = patientIds.map Val.vstr := by
  unfold colVals df_patients patientIds
  rw [List.map_map, List.map_map]
  rfl

lemma colVals_lesions_key_nodup (r : RandSrc) :
    (colVals (df_lesions r) "lesion_id").Nodup := by
  rw [colVals_lesions_key]
  refine List.Nodup.map_on ?_ lesionIds_nodup
  intro x _ y _ h
  exact Val.vstr.inj h

lemma colVals_patients_key_nodup (r : RandSrc) :
    (colVals (df_patients r) "patient_id").Nodup := by
  rw [colVals_patients_key]
  refine List.Nodup.map_on ?_ patientIds_nodup
  intro x _ y _ h
  exact Val.vstr.inj h

lemma followups_key_mem (r : RandSrc) :
    ∀ lrow ∈ (df_followups r).rows,
      cellAt (df_followups r).cols lrow "lesion_id"
        ∈ colVals (df_lesions r) "lesion_id" := by
  intro lrow hl
  rw [colVals_lesions_key]
  obtain ⟨i, _, rfl⟩ := List.mem_map.mp hl
  have hc : cellAt (df_followups r).cols (followupRow r i) "lesion_id"
      = Val.vstr (choiceAt lesionIds (r.nats 19 i)) := rfl
  rw [hc]
  exact List.mem_map_of_mem Val.vstr (choiceAt_mem lesionIds _ lesionIds_ne_nil)

/-! ### The first merge: follow-ups with lesions -/

lemma df_merged1_length (r : RandSrc) :
    (df_merged1 r).rows.length = n_followups := by
  unfold df_merged1
  rw [mergeLeft_length _ _ _ (colVals_lesions_key_nodup r) (followups_key_mem r)]
  simp [df_followups]

lemma df_merged1_shape (r : RandSrc) :
    ∀ row ∈ (df_merged1 r).rows, ∃ i, i < n_followups ∧ ∃ j, j < n_lesions ∧
      row = followupRow r i ++ (lesionRow r j).eraseIdx 0 := by
  intro row hrow
  obtain ⟨lrow, hl, rrow, hr, _, heq⟩ :=
    mergeLeft_shape _ _ _ (colVals_lesions_key_nodup r) (followups_key_mem r)
      row hrow
  obtain ⟨i, hi, rfl⟩ := List.mem_map.mp hl
  obtain ⟨j, hj, rfl⟩ := List.mem_map.mp hr
  exact ⟨i, List.mem_range.mp hi, j, List.mem_range.mp hj, heq⟩

lemma merged1_key_mem (r : RandSrc) :
    ∀ mrow ∈ (df_merged1 r).rows,
      cellAt (df_merged1 r).cols mrow "patient_id"
        ∈ colVals (df_patients r) "patient_id" := by
  intro mrow hm
  obtain ⟨i, _, j, _, rfl⟩ := df_merged1_shape r mrow hm
  rw [colVals_patients_key]
  have hc : cellAt (df_merged1 r).cols
      (followupRow r i ++ (lesionRow r j).eraseIdx 0) "patient_id"
      = Val.vstr (choiceAt patientIds (r.nats 10 j)) := rfl
  rw [hc]
  exact List.mem_map_of_mem Val.vstr (choiceAt_mem patientIds _ patientIds_ne_nil)

/-! ### The second merge: adding patient demographics -/

lemma df_merged_length (r : RandSrc) :
    (df_merged r).rows.length = n_followups := by
  unfold df_merged
  rw [mergeLeft_length _ _ _ (colVals_patients_key_nodup r) (merged1_key_mem r)]
  exact df_merged1_length r

lemma df_merged_shape (r : RandSrc) :
    ∀ row ∈ (df_merged r).rows, ∃ i, i < n_followups ∧ ∃ j, j < n_lesions ∧
      ∃ k, k < n_patients ∧
        row = (followupRow r i ++ (lesionRow r j).eraseIdx 0)
          ++ (patientRow r k).eraseIdx 0 := by
  intro row hrow
  obtain ⟨mrow, hm, prow, hp, _, heq⟩ :=
    mergeLeft_shape _ _ _ (colVals_patients_key_nodup r) (merged1_key_mem r)
      row hrow
  obtain ⟨i, hi, j, hj, rfl⟩ := df_merged1_shape r mrow hm
  obtain ⟨k, hk, rfl⟩ := List.mem_map.mp hp
  exact ⟨i, hi, j, hj, k, List.mem_range.mp hk, heq⟩

/-! ### No generated cell is null -/

lemma patientRow_ne_null (r : RandSrc) (i : Nat) :
    ∀ v ∈ patientRow r i, v ≠ Val.vnull := by
  intro v hv
  simp only [patientRow, List.mem_cons, List.not_mem_nil, or_false] at hv
  rcases hv with rfl | rfl | rfl | rfl | rfl | rfl | rfl | rfl | rfl | rfl | rfl <;> simp

lemma lesionRow_ne_null (r : RandSrc) (i : Nat) :
    ∀ v ∈ lesionRow r i, v ≠ Val.vnull := by
  intro v hv
  simp only [lesionRow, List.mem_cons, List.not_mem_nil, or_false] at hv
  rcases hv with rfl | rfl | rfl | rfl | rfl | rfl | rfl | rfl | rfl | rfl <;> simp

lemma followupRow_ne_null (r : RandSrc) (i : Nat) :
    ∀ v ∈ followupRow r i, v ≠ Val.vnull := by
  intro v hv
  simp only [followupRow, List.mem_cons, List.not_mem_nil, or_false] at hv
  rcases hv with rfl | rfl | rfl | rfl | rfl | rfl | rfl | rfl | rfl | rfl <;> simp

lemma df_merged_no_null (r : RandSrc) :
    ∀ row ∈ (df_merged r).rows, ∀ v ∈ row, v ≠ Val.vnull := by
  intro row hrow v hv
  obtain ⟨i, _, j, _, k, _, rfl⟩ := df_merged_shape r row hrow
  rcases List.mem_append.mp hv with h | h
  · rcases List.mem_append.mp h with h2 | h2
    · exact followupRow_ne_null r i v h2
    · exact lesionRow_ne_null r j v (List.mem_of_mem_eraseIdx h2)
  · exact patientRow_ne_null r k v (List.mem_of_mem_eraseIdx h)

lemma missing_count_df_merged (r : RandSrc) :
    missing_count (df_merged r) = 0 := by
  unfold missing_count
  apply List.sum_eq_zero
  intro x hx
  obtain ⟨row, hrow, rfl⟩ := List.mem_map.mp hx
  rw [List.length_eq_zero]
  refine List.filter_eq_nil_iff.mpr (fun v hv => ?_)
  simp only [beq_iff_eq]
  exact df_merged_no_null r row hrow v hv

lemma df_final_eq_df_merged (r : RandSrc) : df_final r = df_merged r := by
  unfold df_final
  rw [missing_count_df_merged]
  simp

/-! ### Shape of the merged header and rows -/

lemma df_merged_cols_eq (r : RandSrc) :
    (df_merged r).cols = fuCols ++ lesCols.eraseIdx 0 ++ patCols.eraseIdx 0 := rfl

lemma df_merged_row_length (r : RandSrc) :
    ∀ row ∈ (df_merged r).rows, row.length = 29 := by
  intro row hrow
  obtain ⟨i, _, j, _, k, _, rfl⟩ := df_merged_shape r row hrow
  rw [List.length_append, List.length_append]
  rfl

/-! ### Membership helpers for the generated tables -/

lemma mem_df_patients_rows {r : RandSrc} {row : List Val}
    (h : row ∈ (df_patients r).rows) : ∃ i, i < n_patients ∧ row = patientRow r i := by
  obtain ⟨i, hi, rfl⟩ := List.mem_map.mp h
  exact ⟨i, List.mem_range.mp hi, rfl⟩

lemma mem_df_lesions_rows {r : RandSrc} {row : List Val}
    (h : row ∈ (df_lesions r).rows) : ∃ i, i < n_lesions ∧ row = lesionRow r i := by
  obtain ⟨i, hi, rfl⟩ := List.mem_map.mp h
  exact ⟨i, List.mem_range.mp hi, rfl⟩

lemma mem_df_followups_rows {r : RandSrc} {row : List Val}
    (h : row ∈ (df_followups r).rows) : ∃ i, i < n_followups ∧ row = followupRow r i := by
  obtain ⟨i, hi, rfl⟩ := List.mem_map.mp h
  exact ⟨i, List.mem_range.mp hi, rfl⟩

lemma mem_colVals {df : DF} {c : String} {v : Val}
    (hv : v ∈ colVals df c) : ∃ row, row ∈ df.rows ∧ v = cellAt df.cols row c := by
  obtain ⟨row, hrow, rfl⟩ := List.mem_map.mp hv
  exact ⟨row, hrow, rfl⟩

/-! ### Claim theorems -/

/-- C3: whatever values the random source yields, the generated
demographics table has exactly 500 rows (`n_patients`), the lesion table
exactly 800 (`n_lesions`) and the follow-up table exactly 2000
(`n_followups`), prior to any null-dropping. -/
theorem c3_table_row_counts (r : RandSrc) :
    (df_patients r).rows.length = 500
    ∧ (df_lesions r).rows.length = 800
    ∧ (df_followups r).rows.length = 2000 := by
  refine ⟨?_, ?_, ?_⟩ <;>
    simp [df_patients, df_lesions, df_followups, n_patients, n_lesions, n_followups]

/-- C2: referential integrity by construction: every `patient_id` value in
the lesion table is a value of the patient table's `patient_id` column, and
every `lesion_id` value in the follow-up table is a value of the lesion
table's `lesion_id` column, because each foreign key cell is sampled with
replacement from the referenced key column. -/
theorem c2_referential_integrity (r : RandSrc) :
    (∀ v ∈ colVals (df_lesions r) "patient_id",
      v ∈ colVals (df_patients r) "patient_id")
    ∧ (∀ v ∈ colVals (df_followups r) "lesion_id",
      v ∈ colVals (df_lesions r) "lesion_id") := by
  constructor
  · intro v hv
    obtain ⟨row, hrow, rfl⟩ := mem_colVals hv
    obtain ⟨i, _, rfl⟩ := mem_df_lesions_rows hrow
    rw [colVals_patients_key]
    have hc : cellAt (df_lesions r).cols (lesionRow r i) "patient_id"
        = Val.vstr (choiceAt patientIds (r.nats 10 i)) := rfl
    rw [hc]
    exact List.mem_map_of_mem Val.vstr (choiceAt_mem patientIds _ patientIds_ne_nil)
  · intro v hv
    obtain ⟨row, hrow, rfl⟩ := mem_colVals hv
    obtain ⟨i, _, rfl⟩ := mem_df_followups_rows hrow
    rw [colVals_lesions_key]
    have hc : cellAt (df_followups r).cols (followupRow r i) "lesion_id"
        = Val.vstr (choiceAt lesionIds (r.nats 19 i)) := rfl
    rw [hc]
    exact List.mem_map_of_mem Val.vstr (choiceAt_mem lesionIds _ lesionIds_ne_nil)

theorem c2_referential_integrity_witness :
    cellAt (df_lesions zeroRand).cols (lesionRow zeroRand 0) "patient_id"
      ∈ colVals (df_patients zeroRand) "patient_id" := by
  have h0 : lesionRow zeroRand 0 ∈ (df_lesions zeroRand).rows :=
    List.mem_map_of_mem (lesionRow zeroRand) (List.mem_range.mpr (by decide))
  exact (c2_referential_integrity zeroRand).1 _
    (List.mem_map_of_mem (fun row => cellAt (df_lesions zeroRand).cols row "patient_id") h0)

/-- C5: every numeric column stays inside its declared bounds; in
particular every `pain_level` cell is an integer in `[0, 10]` and every
`growth_rate_mm_per_month` cell is a rational in `[-2, 5]`; the remaining
numeric columns (`age`, `oral_hygiene_score`, `size_mm`, `pain_change`)
also stay inside the ranges their sampling calls declare. -/
theorem c5_numeric_bounds (r : RandSrc) :
    (∀ v ∈ colVals (df_lesions r) "pain_level",
      ∃ n : Int, v = Val.vint n ∧ 0 ≤ n ∧ n ≤ 10)
    ∧ (∀ v ∈ colVals (df_followups r) "growth_rate_mm_per_month",
      ∃ q : ℚ, v = Val.vrat q ∧ -2 ≤ q ∧ q ≤ 5)
    ∧ (∀ v ∈ colVals (df_patients r) "age",
      ∃ n : Int, v = Val.vint n ∧ 18 ≤ n ∧ n < 80)
    ∧ (∀ v ∈ colVals (df_patients r) "oral_hygiene_score",
      ∃ n : Int, v = Val.vint n ∧ 1 ≤ n ∧ n ≤ 10)
    ∧ (∀ v ∈ colVals (df_followups r) "size_mm",
      ∃ q : ℚ, v = Val.vrat q ∧ 1 ≤ q ∧ q < 25)
    ∧ (∀ v ∈ colVals (df_followups r) "pain_change",
      ∃ n : Int, v = Val.vint n ∧ -3 ≤ n ∧ n ≤ 3) := by
  refine ⟨?_, ?_, ?_, ?_, ?_, ?_⟩
  · intro v hv
    obtain ⟨row, hrow, rfl⟩ := mem_colVals hv
    obtain ⟨i, _, rfl⟩ := mem_df_lesions_rows hrow
    have hc : cellAt (df_lesions r).cols (lesionRow r i) "pain_level"
        = Val.vint (randintAt 0 11 (r.nats 16 i)) := rfl
    rw [hc]
    obtain ⟨h1, h2⟩ := randintAt_bounds 0 11 (r.nats 16 i) (by norm_num)
    exact ⟨_, rfl, h1, by omega⟩
  · intro v hv
    obtain ⟨row, hrow, rfl⟩ := mem_colVals hv
    obtain ⟨i, _, rfl⟩ := mem_df_followups_rows hrow
    have hc : cellAt (df_followups r).cols (followupRow r i) "growth_rate_mm_per_month"
        = Val.vrat (uniformAt (-2) 5 (r.rats 22 i)) := rfl
    rw [hc]
    obtain ⟨h1, h2⟩ := uniformAt_bounds (-2) 5 (r.rats 22 i) (by norm_num)
    exact ⟨_, rfl, h1, le_of_lt h2⟩
  · intro v hv
    obtain ⟨row, hrow, rfl⟩ := mem_colVals hv
    obtain ⟨i, _, rfl⟩ := mem_df_patients_rows hrow
    have hc : cellAt (df_patients r).cols (patientRow r i) "age"
        = Val.vint (randintAt 18 80 (r.nats 0 i)) := rfl
    rw [hc]
    obtain ⟨h1, h2⟩ := randintAt_bounds 18 80 (r.nats 0 i) (by norm_num)
    exact ⟨_, rfl, h1, h2⟩
  · intro v hv
    obtain ⟨row, hrow, rfl⟩ := mem_colVals hv
    obtain ⟨i, _, rfl⟩ := mem_df_patients_rows hrow
    have hc : cellAt (df_patients r).cols (patientRow r i) "oral_hygiene_score"
        = Val.vint (randintAt 1 11 (r.nats 8 i)) := rfl
    rw [hc]
    obtain ⟨h1, h2⟩ := randintAt_bounds 1 11 (r.nats 8 i) (by norm_num)
    exact ⟨_, rfl, h1, by omega⟩
  · intro v hv
    obtain ⟨row, hrow, rfl⟩ := mem_colVals hv
    obtain ⟨i, _, rfl⟩ := mem_df_followups_rows hrow
    have hc : cellAt (df_followups r).cols (followupRow r i) "size_mm"
        = Val.vrat (uniformAt 1 25 (r.rats 21 i)) := rfl
    rw [hc]
    obtain ⟨h1, h2⟩ := uniformAt_bounds 1 25 (r.rats 21 i) (by norm_num)
    exact ⟨_, rfl, h1, h2⟩
  · intro v hv
    obtain ⟨row, hrow, rfl⟩ := mem_colVals hv
    obtain ⟨i, _, rfl⟩ := mem_df_followups_rows hrow
    have hc : cellAt (df_followups r).cols (followupRow r i) "pain_change"
        = Val.vint (randintAt (-3) 4 (r.nats 25 i)) := rfl
    rw [hc]
    obtain ⟨h1, h2⟩ := randintAt_bounds (-3) 4 (r.nats 25 i) (by norm_num)
    exact ⟨_, rfl, h1, by omega⟩

theorem c5_numeric_bounds_witness :
    ∃ n : Int, cellAt (df_lesions zeroRand).cols (lesionRow zeroRand 0) "pain_level"
      = Val.vint n ∧ 0 ≤ n ∧ n ≤ 10 := by
  have h0 : lesionRow zeroRand 0 ∈ (df_lesions zeroRand).rows :=
    List.mem_map_of_mem (lesionRow zeroRand) (List.mem_range.mpr (by decide))
  exact (c5_numeric_bounds zeroRand).1 _
    (List.mem_map_of_mem (fun row => cellAt (df_lesions zeroRand).cols row "pain_level") h0)

/-- C6: every probability-weighted categorical column (`gender`,
`location`, `ethnicity`, `alcohol_consumption`, `location_oral_cavity`,
`color`, `texture`, `lesion_type_detected`) only takes values from its
declared category set, in every generated row. -/
theorem c6_categorical_support (r : RandSrc) :
    (∀ v ∈ colVals (df_patients r) "gender",
      v ∈ [Val.vstr "Male", Val.vstr "Female"])
    ∧ (∀ v ∈ colVals (df_patients r) "location",
      v ∈ [Val.vstr "Sabah", Val.vstr "Sarawak", Val.vstr "Other"])
    ∧ (∀ v ∈ colVals (df_patients r) "ethnicity",
      v ∈ [Val.vstr "Indigenous", Val.vstr "Chinese", Val.vstr "Malay",
           Val.vstr "Other"])
    ∧ (∀ v ∈ colVals (df_patients r) "alcohol_consumption",
      v ∈ [Val.vstr "None", Val.vstr "Occasional", Val.vstr "Regular",
           Val.vstr "Heavy"])
    ∧ (∀ v ∈ colVals (df_lesions r) "location_oral_cavity",
      v ∈ [Val.vstr "Tongue", Val.vstr "Buccal Mucosa",
           Val.vstr "Floor of Mouth", Val.vstr "Palate", Val.vstr "Gingiva",
           Val.vstr "Lip"])
    ∧ (∀ v ∈ colVals (df_lesions r) "color",
      v ∈ [Val.vstr "White", Val.vstr "Red", Val.vstr "Mixed",
           Val.vstr "Normal"])
    ∧ (∀ v ∈ colVals (df_lesions r) "texture",
      v ∈ [Val.vstr "Smooth", Val.vstr "Rough", Val.vstr "Ulcerated",
           Val.vstr "Raised"])
    ∧ (∀ v ∈ colVals (df_lesions r) "lesion_type_detected",
      v ∈ [Val.vstr "Benign", Val.vstr "Suspicious", Val.vstr "High-Risk"]) := by
  refine ⟨?_, ?_, ?_, ?_, ?_, ?_, ?_, ?_⟩
  · intro v hv
    obtain ⟨row, hrow, rfl⟩ := mem_colVals hv
    obtain ⟨i, _, rfl⟩ := mem_df_patients_rows hrow
    have hc : cellAt (df_patients r).cols (patientRow r i) "gender"
        = Val.vstr (choiceAt ["Male", "Female"] (r.nats 1 i)) := rfl
    rw [hc]
    exact List.mem_map_of_mem Val.vstr (choiceAt_mem _ _ (by simp))
  · intro v hv
    obtain ⟨row, hrow, rfl⟩ := mem_colVals hv
    obtain ⟨i, _, rfl⟩ := mem_df_patients_rows hrow
    have hc : cellAt (df_patients r).cols (patientRow r i) "location"
        = Val.vstr (choiceAt ["Sabah", "Sarawak", "Other"] (r.nats 2 i)) := rfl
    rw [hc]
    exact List.mem_map_of_mem Val.vstr (choiceAt_mem _ _ (by simp))
  · intro v hv
    obtain ⟨row, hrow, rfl⟩ := mem_colVals hv
    obtain ⟨i, _, rfl⟩ := mem_df_patients_rows hrow
    have hc : cellAt (df_patients r).cols (patientRow r i) "ethnicity"
        = Val.vstr (choiceAt ["Indigenous", "Chinese", "Malay", "Other"]
            (r.nats 3 i)) := rfl
    rw [hc]
    exact List.mem_map_of_mem Val.vstr (choiceAt_mem _ _ (by simp))
  · intro v hv
    obtain ⟨row, hrow, rfl⟩ := mem_colVals hv
    obtain ⟨i, _, rfl⟩ := mem_df_patients_rows hrow
    have hc : cellAt (df_patients r).cols (patientRow r i) "alcohol_consumption"
        = Val.vstr (choiceAt ["None", "Occasional", "Regular", "Heavy"]
            (r.nats 6 i)) := rfl
    rw [hc]
    exact List.mem_map_of_mem Val.vstr (choiceAt_mem _ _ (by simp))
  · intro v hv
    obtain ⟨row, hrow, rfl⟩ := mem_colVals hv
    obtain ⟨i, _, rfl⟩ := mem_df_lesions_rows hrow
    have hc : cellAt (df_lesions r).cols (lesionRow r i) "location_oral_cavity"
        = Val.vstr (choiceAt ["Tongue", "Buccal Mucosa", "Floor of Mouth",
            "Palate", "Gingiva", "Lip"] (r.nats 12 i)) := rfl
    rw [hc]
    exact List.mem_map_of_mem Val.vstr (choiceAt_mem _ _ (by simp))
  · intro v hv
    obtain ⟨row, hrow, rfl⟩ := mem_colVals hv
    obtain ⟨i, _, rfl⟩ := mem_df_lesions_rows hrow
    have hc : cellAt (df_lesions r).cols (lesionRow r i) "color"
        = Val.vstr (choiceAt ["White", "Red", "Mixed", "Normal"]
            (r.nats 14 i)) := rfl
    rw [hc]
    exact List.mem_map_of_mem Val.vstr (choiceAt_mem _ _ (by simp))
  · intro v hv
    obtain ⟨row, hrow, rfl⟩ := mem_colVals hv
    obtain ⟨i, _, rfl⟩ := mem_df_lesions_rows hrow
    have hc : cellAt (df_lesions r).cols (lesionRow r i) "texture"
        = Val.vstr (choiceAt ["Smooth", "Rough", "Ulcerated", "Raised"]
            (r.nats 15 i)) := rfl
    rw [hc]
    exact List.mem_map_of_mem Val.vstr (choiceAt_mem _ _ (by simp))
  · intro v hv
    obtain ⟨row, hrow, rfl⟩ := mem_colVals hv
    obtain ⟨i, _, rfl⟩ := mem_df_lesions_rows hrow
    have hc : cellAt (df_lesions r).cols (lesionRow r i) "lesion_type_detected"
        = Val.vstr (choiceAt ["Benign", "Suspicious", "High-Risk"]
            (r.nats 18 i)) := rfl
    rw [hc]
    exact List.mem_map_of_mem Val.vstr (choiceAt_mem _ _ (by simp))

theorem c6_categorical_support_witness :
    cellAt (df_patients zeroRand).cols (patientRow zeroRand 0) "gender"
      ∈ [Val.vstr "Male", Val.vstr "Female"] := by
  have h0 : patientRow zeroRand 0 ∈ (df_patients zeroRand).rows :=
    List.mem_map_of_mem (patientRow zeroRand) (List.mem_range.mpr (by decide))
  exact (c6_categorical_support zeroRand).1 _
    (List.mem_map_of_mem (fun row => cellAt (df_patients zeroRand).cols row "gender") h0)

/-- C10: in every generated lesion row, `ai_confidence_score` lies in the
half-open interval `[0.4, 0.99)` and `initial_size_mm` lies in `[2, 20)`,
the ranges `np.random.uniform` declares. -/
theorem c10_lesion_uniform_bounds (r : RandSrc) :
    (∀ v ∈ colVals (df_lesions r) "ai_confidence_score",
      ∃ q : ℚ, v = Val.vrat q ∧ (0.4 : ℚ) ≤ q ∧ q < (0.99 : ℚ))
    ∧ (∀ v ∈ colVals (df_lesions r) "initial_size_mm",
      ∃ q : ℚ, v = Val.vrat q ∧ 2 ≤ q ∧ q < 20) := by
  constructor
  · intro v hv
    obtain ⟨row, hrow, rfl⟩ := mem_colVals hv
    obtain ⟨i, _, rfl⟩ := mem_df_lesions_rows hrow
    have hc : cellAt (df_lesions r).cols (lesionRow r i) "ai_confidence_score"
        = Val.vrat (uniformAt (0.4 : ℚ) (0.99 : ℚ) (r.rats 17 i)) := rfl
    rw [hc]
    obtain ⟨h1, h2⟩ := uniformAt_bounds (0.4 : ℚ) (0.99 : ℚ) (r.rats 17 i) (by norm_num)
    exact ⟨_, rfl, h1, h2⟩
  · intro v hv
    obtain ⟨row, hrow, rfl⟩ := mem_colVals hv
    obtain ⟨i, _, rfl⟩ := mem_df_lesions_rows hrow
    have hc : cellAt (df_lesions r).cols (lesionRow r i) "initial_size_mm"
        = Val.vrat (uniformAt 2 20 (r.rats 13 i)) := rfl
    rw [hc]
    obtain ⟨h1, h2⟩ := uniformAt_bounds 2 20 (r.rats 13 i) (by norm_num)
    exact ⟨_, rfl, h1, h2⟩

theorem c10_lesion_uniform_bounds_witness :
    ∃ q : ℚ, cellAt (df_lesions zeroRand).cols (lesionRow zeroRand 0) "ai_confidence_score"
      = Val.vrat q ∧ (0.4 : ℚ) ≤ q ∧ q < (0.99 : ℚ) := by
  have h0 : lesionRow zeroRand 0 ∈ (df_lesions zeroRand).rows :=
    List.mem_map_of_mem (lesionRow zeroRand) (List.mem_range.mpr (by decide))
  exact (c10_lesion_uniform_bounds zeroRand).1 _
    (List.mem_map_of_mem
      (fun row => cellAt (df_lesions zeroRand).cols row "ai_confidence_score") h0)

/-- C1: after left-joining follow-ups with lesions on `lesion_id` and the
result with patients on `patient_id`, the merged row count is at most the
follow-up row count, and (for every random source, hence for the fixed
seed) it is exactly 2000 before any null-drop, with every merged row
carrying non-null `patient_id`, `lesion_id` and
`growth_rate_mm_per_month`. -/
theorem c1_merge_row_count (r : RandSrc) :
    (df_merged r).rows.length ≤ (df_followups r).rows.length
    ∧ (df_merged r).rows.length = 2000
    ∧ ∀ row ∈ (df_merged r).rows,
        cellAt (df_merged r).cols row "patient_id" ≠ Val.vnull
        ∧ cellAt (df_merged r).cols row "lesion_id" ≠ Val.vnull
        ∧ cellAt (df_merged r).cols row "growth_rate_mm_per_month" ≠ Val.vnull := by
  refine ⟨?_, ?_, ?_⟩
  · rw [df_merged_length]
    simp [df_followups]
  · rw [df_merged_length]
    rfl
  · intro row hrow
    obtain ⟨i, _, j, _, k, _, rfl⟩ := df_merged_shape r row hrow
    refine ⟨?_, ?_, ?_⟩
    · have hc : cellAt (df_merged r).cols
          ((followupRow r i ++ (lesionRow r j).eraseIdx 0)
            ++ (patientRow r k).eraseIdx 0) "patient_id"
          = Val.vstr (choiceAt patientIds (r.nats 10 j)) := rfl
      rw [hc]
      simp
    · have hc : cellAt (df_merged r).cols
          ((followupRow r i ++ (lesionRow r j).eraseIdx 0)
            ++ (patientRow r k).eraseIdx 0) "lesion_id"
          = Val.vstr (choiceAt lesionIds (r.nats 19 i)) := rfl
      rw [hc]
      simp
    · have hc : cellAt (df_merged r).cols
          ((followupRow r i ++ (lesionRow r j).eraseIdx 0)
            ++ (patientRow r k).eraseIdx 0) "growth_rate_mm_per_month"
          = Val.vrat (uniformAt (-2) 5 (r.rats 22 i)) := rfl
      rw [hc]
      simp

theorem c1_merge_row_count_witness :
    cellAt (df_merged zeroRand).cols ((df_merged zeroRand).rows.getD 0 [])
        "patient_id" ≠ Val.vnull
    ∧ cellAt (df_merged zeroRand).cols ((df_merged zeroRand).rows.getD 0 [])
        "lesion_id" ≠ Val.vnull
    ∧ cellAt (df_merged zeroRand).cols ((df_merged zeroRand).rows.getD 0 [])
        "growth_rate_mm_per_month" ≠ Val.vnull := by
  have hlen : 0 < (df_merged zeroRand).rows.length := by
    rw [df_merged_length]
    decide
  have hmem : (df_merged zeroRand).rows.getD 0 [] ∈ (df_merged zeroRand).rows := by
    rw [List.getD_eq_getElem _ _ hlen]
    exact List.getElem_mem hlen
  exact (c1_merge_row_count zeroRand).2.2 _ hmem

/-- C8: the post-merge null-drop branch is unreachable: the merged table
contains zero nulls, so the guarded `dropna` never runs and the final
serialized table always has exactly 2000 rows. -/
theorem c8_dropna_unreachable (r : RandSrc) :
    missing_count (df_merged r) = 0
    ∧ ¬ 0 < missing_count (df_merged r)
    ∧ df_final r = df_merged r
    ∧ (df_final r).rows.length = 2000 := by
  refine ⟨missing_count_df_merged r, ?_, df_final_eq_df_merged r, ?_⟩
  · rw [missing_count_df_merged r]
    omega
  · rw [df_final_eq_df_merged r, df_merged_length]
    rfl

/-- C9: the merged table has exactly 29 columns (10 follow-up columns,
the 10 lesion columns minus the deduplicated `lesion_id`, and the 11
patient columns minus the deduplicated `patient_id`), and each join key
occurs exactly once in the merged header. -/
theorem c9_merged_column_count (r : RandSrc) :
    (df_merged r).cols.length = 29
    ∧ (df_merged r).cols.count "lesion_id" = 1
    ∧ (df_merged r).cols.count "patient_id" = 1 := by
  simp only [df_merged_cols_eq]
  refine ⟨by decide, by decide, by decide⟩

/-- C7: the serialized output has the columns in the order follow-up
fields, lesion fields minus the duplicated `lesion_id`, patient fields
minus the duplicated `patient_id`; its text starts with the header line,
every data row has exactly as many fields as the header (no index
column), and the target is the single hard-coded relative path. -/
theorem c7_output_format (r : RandSrc) :
    (df_final r).cols = fuCols ++ lesCols.eraseIdx 0 ++ patCols.eraseIdx 0
    ∧ (df_final r).cols.length = 29
    ∧ (∃ rest : String,
        runOutput r = String.intercalate "," (df_final r).cols ++ "\n" ++ rest)
    ∧ (∀ row ∈ (df_final r).rows, row.length = 29)
    ∧ output_filename = "../../../Users/Asus/PyCharmMiscProject/smart_toothbrush_data.csv"
    ∧ output_filename.data.head? = some (Char.ofNat 46) := by
  refine ⟨?_, ?_,
    ⟨String.intercalate "\n" ((df_final r).rows.map csvLine) ++ "\n", ?_⟩,
    ?_, rfl, by decide⟩
  · rw [df_final_eq_df_merged r]
    exact df_merged_cols_eq r
  · rw [df_final_eq_df_merged r, df_merged_cols_eq r]
    decide
  · show toCsv (df_final r) = _
    unfold toCsv
    rw [String.append_assoc]
  · intro row hrow
    rw [df_final_eq_df_merged r] at hrow
    exact df_merged_row_length r row hrow

theorem c7_output_format_witness :
    ((df_final zeroRand).rows.getD 0 []).length = 29 := by
  have hlen : 0 < (df_final zeroRand).rows.length := by
    rw [df_final_eq_df_merged zeroRand, df_merged_length]
    decide
  have hmem : (df_final zeroRand).rows.getD 0 [] ∈ (df_final zeroRand).rows := by
    rw [List.getD_eq_getElem _ _ hlen]
    exact List.getElem_mem hlen
  exact (c7_output_format zeroRand).2.2.2.1 _ hmem

/-- C4: the program is deterministic for the fixed seed 42: any two runs
whose random draws come from seeding the generators with 42 produce
byte-identical serialized output. -/
theorem c4_fixed_seed_deterministic (r1 r2 : RandSrc)
    (h1 : r1 = seededRand 42) (h2 : r2 = seededRand 42) :
    runOutput r1 = runOutput r2 := by
  rw [h1, h2]

theorem c4_fixed_seed_deterministic_witness :
    runOutput (seededRand 42) = runOutput (seededRand 42) :=
  c4_fixed_seed_deterministic (seededRand 42) (seededRand 42) rfl rfl
